import Mathlib

set_option maxRecDepth 100000
set_option maxHeartbeats 1000000

/-!
Verification of the interactive range-selection and filtering engine of
`src/dashboard/components/frequencyplot.py` (class `FrequencyPlot`).

The Python class is shallowly embedded as a pure state machine: the mutable
widget fields that the core logic reads and writes become fields of a `State`
structure, and every method becomes a function `State → ... → State` (returning
extra outputs, such as emitted signals or the count of message boxes shown,
where the claims need them).  Machine reals (Python floats) are modelled as
rationals, Python `int` as `ℤ`, and Python `int()` truncation as truncation
toward zero on `ℚ`.  External collaborators (the Mongo-backed `Database`, the
Qt message boxes, matplotlib rendering) are modelled as explicit parameters or
are outside the state, exactly as the spec designates them collaborators.
-/

/-- One sensor record, with the fields the source reads through `r.get(...)`:
`frameIndex`, `createdAt` (modelled as a numeric timestamp in seconds, the
result of `parse_time`), `samplingRate`, `numberOfChannels`, `samplingSize`,
`tacoChannelCount` (the literal dictionary key used at source line 251), and
`message` (the sample payload; an absent payload is the empty list, which is
falsy in Python exactly like a missing key). -/
structure Record where
  frameIndex : ℤ
  createdAt : ℚ
  samplingRate : ℚ
  numberOfChannels : ℕ
  samplingSize : ℕ
  tacoChannelCount : ℕ
  message : List ℚ
deriving DecidableEq

/-- The mutable fields of `FrequencyPlot` that the range-selection and
crosshair logic reads and writes (source lines 23-53 and 90-106).  Qt slider
positions are integers in 0..100; the two percentage fields are Python floats,
modelled as rationals.  `start_time` and `end_time` are numeric timestamps in
seconds (a `None` Python value is `none`). -/
structure State where
  project_name : String
  model_name : String
  filename : String
  start_time : Option ℚ
  end_time : Option ℚ
  current_records : List Record
  filtered_records : List Record
  lower_time_percentage : ℚ
  upper_time_percentage : ℚ
  time_data : Option (List ℚ)
  frequency_data : Option (List ℚ)
  selected_record : Option Record
  is_crosshair_visible : Bool
  is_crosshair_locked : Bool
  locked_crosshair_position : Option (ℚ × ℚ)
  crosshair_state_saved : Bool
  saved_crosshair_visible : Bool
  saved_crosshair_locked : Bool
  saved_crosshair_position : Option (ℚ × ℚ)
  is_dragging_range : Bool
  drag_start_x : ℚ
  initial_lower_x : ℚ
  initial_upper_x : ℚ
  start_slider : ℤ
  end_slider : ℤ
deriving DecidableEq

/-- State of a freshly constructed widget: `__init__` (lines 30-53) sets the
record lists empty, percentages 0 and 100, all crosshair flags off, and
`initUI` (lines 90-106) puts the start slider at 0 and the end slider at 100.
The constructor string arguments and the optional start and end times are
irrelevant to the claims and taken empty here. -/
def initState : State where
  project_name := ""
  model_name := ""
  filename := ""
  start_time := none
  end_time := none
  current_records := []
  filtered_records := []
  lower_time_percentage := 0
  upper_time_percentage := 100
  time_data := none
  frequency_data := none
  selected_record := none
  is_crosshair_visible := false
  is_crosshair_locked := false
  locked_crosshair_position := none
  crosshair_state_saved := false
  saved_crosshair_visible := false
  saved_crosshair_locked := false
  saved_crosshair_position := none
  is_dragging_range := false
  drag_start_x := 0
  initial_lower_x := 0
  initial_upper_x := 0
  start_slider := 0
  end_slider := 100

/-- Python `int()` applied to a float: truncation toward zero. -/
def truncInt (q : ℚ) : ℤ := if 0 ≤ q then ⌊q⌋ else ⌈q⌉

/-- Python `min` over a nonempty sequence of ints (the empty case is
unreachable behind the emptiness guards in the source; 0 is a dummy). -/
def pyMinZ : List ℤ → ℤ
  | [] => 0
  | x :: xs => xs.foldl min x

/-- Python `max` over a nonempty sequence of ints. -/
def pyMaxZ : List ℤ → ℤ
  | [] => 0
  | x :: xs => xs.foldl max x

/-- Python `min` over a nonempty sequence of rationals. -/
def pyMinQ : List ℚ → ℚ
  | [] => 0
  | x :: xs => xs.foldl min x

/-- Python `max` over a nonempty sequence of rationals. -/
def pyMaxQ : List ℚ → ℚ
  | [] => 0
  | x :: xs => xs.foldl max x

/-- Ascending comparison by frame index, the key `lambda x: x.get("frameIndex", 0)`
passed to Python sorts at source lines 169 and 214. -/
def recLe (a b : Record) : Prop := a.frameIndex ≤ b.frameIndex

instance : DecidableRel recLe := fun a b =>
  show Decidable (a.frameIndex ≤ b.frameIndex) from inferInstance

instance : IsTotal Record recLe := ⟨fun a b => le_total a.frameIndex b.frameIndex⟩

instance : IsTrans Record recLe := ⟨fun _ _ _ h1 h2 => le_trans h1 h2⟩

/-- Python list sort is a stable ascending sort; the stable sort of a list by a
key is a unique function, so insertion sort with the non-strict key comparison
is extensionally the sort the source performs. -/
def pySortByFrameIndex (l : List Record) : List Record := List.insertionSort recLe l

/-- np.mean of a sequence, as exact rational arithmetic (the source only ever
takes means of nonempty slices, so the division is never by zero). -/
def listMean (l : List ℚ) : ℚ := l.sum / l.length

/-- matplotlib `mdates.date2num`: days since year 1, day 719163 being the Unix
epoch; an affine bijection from timestamp seconds. -/
def mdates_date2num (t : ℚ) : ℚ := t / 86400 + 719163

/-- matplotlib `mdates.num2date(x).timestamp()`: inverse of `mdates_date2num`. -/
def mdates_num2timestamp (x : ℚ) : ℚ := (x - 719163) * 86400

/-- Model of `update_labels` (lines 406-421).  The method formats two label
strings and restarts the debounce timer (rendering and scheduling effects,
outside the state model); its modelled effect is lines 417-418, which copy the
raw integer slider values into the two percentage fields, with no ordering
enforcement of any kind. -/
def update_labels (s : State) : State :=
  { s with lower_time_percentage := (s.start_slider : ℚ)
           upper_time_percentage := (s.end_slider : ℚ) }

/-- Model of `get_minimum_range_percentage` (lines 386-404): returns 1.0 when a
time bound is missing or the total duration is nonpositive; otherwise the
minimal sample duration max(1/samplingRate, 0.1) of the first record (1.0 when
there are no records or the rate is nonpositive) as a percentage of the total
duration, clamped ABOVE at 100 by `min`. -/
def get_minimum_range_percentage (s : State) : ℚ :=
  match s.start_time, s.end_time with
  | some st, some et =>
    let total_duration_seconds := et - st
    if total_duration_seconds ≤ 0 then 1
    else
      let min_duration_seconds :=
        match s.current_records with
        | [] => 1
        | r :: _ => if 0 < r.samplingRate then max (1 / r.samplingRate) (1 / 10) else 1
      min (min_duration_seconds / total_duration_seconds * 100) 100
  | _, _ => 1

/-- Frame-index window computed identically at source lines 200-208 and
447-453 (both call sites guard against an empty record list first): minFrame
plus the truncated products of the frame range with the two percentages, then
clamped into the frame range. -/
def frame_window (records : List Record) (lowerPct upperPct : ℚ) : ℤ × ℤ :=
  let idxs := records.map Record.frameIndex
  let min_frame_index := pyMinZ idxs
  let max_frame_index := pyMaxZ idxs
  let total_frame_range : ℤ := max_frame_index - min_frame_index
  let start_frame_index :=
    min_frame_index + truncInt ((total_frame_range : ℚ) * lowerPct / 100)
  let end_frame_index :=
    min_frame_index + truncInt ((total_frame_range : ℚ) * upperPct / 100)
  (max min_frame_index start_frame_index, min max_frame_index end_frame_index)

/-- Model of `get_current_frame_index_range` (lines 443-457): `(0, 0)` on an
empty record set, else the clamped truncated window. -/
def get_current_frame_index_range (s : State) : ℤ × ℤ :=
  if s.current_records = [] then (0, 0)
  else frame_window s.current_records s.lower_time_percentage s.upper_time_percentage

/-- Model of `filter_records_by_frame_index_range` (lines 194-218): clears the
filtered list when there are no records, else keeps exactly the records whose
frame index lies in the inclusive window and sorts them ascending by frame
index (Python stable sort). -/
def filter_records_by_frame_index_range (s : State) : State :=
  if s.current_records = [] then { s with filtered_records := [] }
  else
    let w := frame_window s.current_records s.lower_time_percentage s.upper_time_percentage
    { s with filtered_records :=
        pySortByFrameIndex (s.current_records.filter
          (fun rec => decide (w.1 ≤ rec.frameIndex) && decide (rec.frameIndex ≤ w.2))) }

/-- Model of `plot_frequency_data` (lines 241-289) restricted to its state
writes: on a nonempty filtered list with at least one tacho channel it stores
the plotted x data (date numbers of the record timestamps) and y data (mean of
the tacho slice of each payload, scaled by 1/100).  All drawing is a Renderer
effect outside the model; no crosshair or range field is written. -/
def plot_frequency_data (s : State) : State :=
  match s.filtered_records with
  | [] => s
  | r :: _ =>
    if r.tacoChannelCount < 1 then s
    else
      let tacho_index := r.numberOfChannels
      let samples_per_channel := r.samplingSize
      { s with
        time_data := some (s.filtered_records.map (fun rec => mdates_date2num rec.createdAt))
        frequency_data := some (s.filtered_records.map (fun rec =>
          listMean (((rec.message.drop (tacho_index * samples_per_channel)).take
            samples_per_channel).map (fun v => v / 100)))) }

/-- Model of `filter_and_plot_data` (lines 423-430), the debounce-timer
callback: a no-op without records, else filter then plot. -/
def filter_and_plot_data (s : State) : State :=
  if s.current_records = [] then s
  else plot_frequency_data (filter_records_by_frame_index_range s)

/-- Model of `save_crosshair_state` (lines 220-230). -/
def save_crosshair_state (s : State) : State :=
  if s.is_crosshair_visible || s.is_crosshair_locked then
    { s with saved_crosshair_visible := s.is_crosshair_visible
             saved_crosshair_locked := s.is_crosshair_locked
             saved_crosshair_position := s.locked_crosshair_position
             crosshair_state_saved := true }
  else
    { s with crosshair_state_saved := false }

/-- Model of `restore_crosshair_state` (lines 232-239). -/
def restore_crosshair_state (s : State) : State :=
  if s.crosshair_state_saved then
    { s with is_crosshair_visible := s.saved_crosshair_visible
             is_crosshair_locked := s.saved_crosshair_locked
             locked_crosshair_position := s.saved_crosshair_position }
  else s

/-- Model of `start_range_drag` (lines 344-350): records the drag baseline.
Note that it writes no crosshair field and does not call
`save_crosshair_state`. -/
def start_range_drag (s : State) : State :=
  { s with is_dragging_range := true
           initial_lower_x := s.lower_time_percentage
           initial_upper_x := s.upper_time_percentage }

/-- Model of `stop_range_drag` (lines 352-357): ends the drag and arms the
debounce timer (whose later firing is `filter_and_plot_data`).  It writes no
crosshair field and does not call `restore_crosshair_state`. -/
def stop_range_drag (s : State) : State :=
  { s with is_dragging_range := false }

/-- Model of `range_mouse_move` (lines 359-384).  Outside a drag, or with a
nonpositive widget width, or when the clamped new span falls below the minimum
range percentage, the state is unchanged.  Otherwise both sliders are set to
the truncated new bounds; the final explicit `update_labels()` call at line 381
then overwrites the two float percentage fields (assigned at lines 379-380)
with those integer slider values, which is the net effect modelled here. -/
def range_mouse_move (s : State) (mouse_x widget_width : ℚ) : State :=
  if s.is_dragging_range = false then s
  else if widget_width ≤ 0 then s
  else
    let delta_x := (mouse_x - s.drag_start_x) / widget_width * 100
    let new_lower_x := max 0 (min 100 (s.initial_lower_x + delta_x))
    let new_upper_x := max 0 (min 100 (s.initial_upper_x + delta_x))
    let min_range := get_minimum_range_percentage s
    if new_upper_x - new_lower_x < min_range then s
    else
      update_labels
        { s with start_slider := truncInt new_lower_x
                 end_slider := truncInt new_upper_x
                 lower_time_percentage := new_lower_x
                 upper_time_percentage := new_upper_x }

/-- One mid-drag step: a `range_mouse_move` event, optionally followed by a
firing of the armed debounce timer (`filter_and_plot_data`), modelling the
redraws that occur while the drag is in progress. -/
def drag_step (s : State) (ev : ℚ × ℚ × Bool) : State :=
  let s1 := range_mouse_move s ev.1 ev.2.1
  if ev.2.2 then filter_and_plot_data s1 else s1

/-- A whole range-drag gesture: button press (`start_range_drag`), a sequence
of mid-drag moves and redraws, button release (`stop_range_drag`), and the
trailing debounce-timer firing armed by the release. -/
def drag_gesture (s : State) (evs : List (ℚ × ℚ × Bool)) : State :=
  filter_and_plot_data (stop_range_drag (evs.foldl drag_step (start_range_drag s)))

/-- Model of `on_mouse_move` (lines 291-310): ignored outside the axes, while
the crosshair is locked, or when the 50 ms debounce drops the event
(`debounce_ok = false`); otherwise makes the crosshair visible at the hovered
point.  The lock flag and locked position are never written. -/
def on_mouse_move (s : State) (inaxes : Bool) (xy : Option (ℚ × ℚ)) (debounce_ok : Bool) :
    State :=
  if !inaxes || s.is_crosshair_locked || !debounce_ok then s
  else
    match xy with
    | none => s
    | some _ => { s with is_crosshair_visible := true }

/-- Model of `on_mouse_click` (lines 312-332): a left click inside the axes
with valid data coordinates toggles the lock; locking stores the clicked
position, unlocking clears it.  Both fields are written before the line-object
accesses that could raise, so the modelled fields are exact even on the raising
paths. -/
def on_mouse_click (s : State) (inaxes : Bool) (xy : Option (ℚ × ℚ)) (button : ℤ) : State :=
  if !inaxes then s
  else
    match xy with
    | none => s
    | some (x, y) =>
      if button = 1 then
        if s.is_crosshair_locked then
          { s with is_crosshair_locked := false, locked_crosshair_position := none }
        else
          { s with is_crosshair_locked := true, locked_crosshair_position := some (x, y) }
      else s

/-- Model of `on_mouse_leave` (lines 334-342): hides an unlocked visible
crosshair; the lock flag and locked position are never written. -/
def on_mouse_leave (s : State) : State :=
  if s.is_crosshair_visible && !s.is_crosshair_locked then
    { s with is_crosshair_visible := false }
  else s

/-- A pointer event relevant to the lock invariant: a button press with its
axes containment, data coordinates and button number, or leaving the axes. -/
inductive MouseEvent where
  | click (inaxes : Bool) (xy : Option (ℚ × ℚ)) (button : ℤ)
  | leave
deriving DecidableEq

/-- Dispatch one pointer event to its handler. -/
def applyEvent (s : State) : MouseEvent → State
  | MouseEvent.click inaxes xy button => on_mouse_click s inaxes xy button
  | MouseEvent.leave => on_mouse_leave s

/-- Apply a sequence of pointer events in order. -/
def applyEvents (s : State) (evs : List MouseEvent) : State :=
  evs.foldl applyEvent s

/-- The dictionary emitted on the `time_range_selected` signal (lines 542-549). -/
structure SelectionPayload where
  filename : String
  model : String
  frameIndex : ℤ
  timestamp : ℚ
  channelData : List ℚ
  project_name : String
deriving DecidableEq

/-- First element of a nonempty list minimising the key, matching Python `min`
with a key function, which keeps the earliest minimum and returns the default
`none` on an empty sequence. -/
def argminBy (f : Record → ℚ) : List Record → Option Record
  | [] => none
  | x :: xs => some (xs.foldl (fun best r => if f r < f best then r else best) x)

/-- Model of `find_closest_record` (lines 459-489): the record whose timestamp
is nearest the clicked time; when its payload is empty the full record is
re-fetched from the store by frame index (`fetch` models
`db.get_history_messages(..., frame_index)` returning its first element, or
`none` for an empty result, which the source returns as a falsy value). -/
def find_closest_record (s : State) (fetch : ℤ → Option Record) (clicked_time : ℚ) :
    Option Record :=
  match argminBy (fun r => |r.createdAt - clicked_time|) s.current_records with
  | none => none
  | some closest =>
    if closest.message = [] then fetch closest.frameIndex
    else some closest

/-- Python `datetime.timezone` called with the string "Asia/Kolkata" as the
source does at line 516: `datetime.timezone` accepts only a `timedelta` offset,
so the call raises `TypeError` for every string argument; modelled as `none`
(the pytz-style name lookup the author apparently intended does not exist on
this type). -/
def datetime_timezone_of_string (_name : String) : Option ℚ := none

/-- Model of `select_button_click` (lines 491-564).  Returns the new state and
the list of payloads emitted on `time_range_selected`.  Without a locked
crosshair and stored position it informs and returns unchanged.  Otherwise it
resolves the closest record (writing `selected_record` before any later check),
aborts with a warning when none resolves, and then formats the confirmation
text, during which `datetime.timezone("Asia/Kolkata")` raises `TypeError`: the
handler at line 562 shows an error box and the prompt (`ask`) and the emit are
never reached.  The dead code past that point is still modelled faithfully. -/
def select_button_click (s : State) (fetch : ℤ → Option Record) (ask : Bool) :
    State × List SelectionPayload :=
  match s.is_crosshair_locked, s.locked_crosshair_position with
  | true, some (x, _y) =>
    let selected_time := mdates_num2timestamp x
    let s1 := { s with selected_record := find_closest_record s fetch selected_time }
    match s1.selected_record with
    | none => (s1, [])
    | some r =>
      match datetime_timezone_of_string "Asia/Kolkata" with
      | none => (s1, [])
      | some _tz =>
        if ask then
          (s1, [{ filename := s1.filename
                  model := s1.model_name
                  frameIndex := r.frameIndex
                  timestamp := r.createdAt
                  channelData := r.message
                  project_name := s1.project_name }])
        else (s1, [])
  | _, _ => (s, [])

/-- Timestamp of an optional time, with the 0 default of the `start_timestamp`
and `end_timestamp` properties (lines 579-585). -/
def pyTimestamp (t : Option ℚ) : ℚ := t.getD 0

/-- Model of `fetch_all_records` (lines 157-192).  The store result is
`Except.error` for a connectivity failure raised by the database call (caught
at line 190, one error box) and `Except.ok` for a returned list; an empty list
informs once and returns (line 164-167).  On data: sort ascending by frame
index, derive missing time bounds from the record timestamps, and either plot
everything (short recording) or restrict to the first 5 percent (recording
longer than 6 minutes).  The second component counts message boxes shown. -/
def fetch_all_records (s : State) (store : Except Unit (List Record)) : State × ℕ :=
  match store with
  | Except.error _ => (s, 1)
  | Except.ok [] => (s, 1)
  | Except.ok (m :: ms) =>
    let s1 := { s with current_records := pySortByFrameIndex (m :: ms) }
    let s2 :=
      if s1.start_time = none ∨ s1.end_time = none then
        let created_times := s1.current_records.map Record.createdAt
        { s1 with start_time := some (pyMinQ created_times)
                  end_time := some (pyMaxQ created_times) }
      else s1
    let recording_duration := (pyTimestamp s2.end_time - pyTimestamp s2.start_time) / 60
    if 6 < recording_duration then
      let s3 := update_labels { s2 with lower_time_percentage := 0
                                        upper_time_percentage := 5
                                        start_slider := 0
                                        end_slider := 5 }
      (plot_frequency_data (filter_records_by_frame_index_range s3), 0)
    else
      (plot_frequency_data { s2 with filtered_records := s2.current_records }, 0)

/-- Model of `initialize_data` (lines 148-156): clears both record lists FIRST
and only then fetches; its own exception handler is unreachable because
`fetch_all_records` catches internally, so the message-box count is exactly the
one from the fetch. -/
def init_data (s : State) (store : Except Unit (List Record)) : State × ℕ :=
  fetch_all_records { s with current_records := [], filtered_records := [] } store

/-- Model of `downsample_array` (lines 432-441): identity for factor at most 1
(nonpositive Python factors also satisfy that test); otherwise one output per
block of `factor` consecutive elements (last block clipped to the array end),
each output being the arithmetic mean of its block. -/
def downsample_array (array : List ℚ) (factor : ℕ) : List ℚ :=
  if factor ≤ 1 then array
  else
    let output_length := (array.length + factor - 1) / factor
    (List.range output_length).map (fun i =>
      let block := (array.drop (i * factor)).take factor
      listMean block)

/-- Modelled from the spec: the `minimumSpanPercent` formula as section 4.3
states it, namely max(minSampleDuration / totalDuration * 100, epsilonPercent)
with minSampleDuration = max(1/samplingRate, 0.1 s), reading the sampling rate
from the first record and the duration from the time bounds exactly as the
source function does.  Stated only to be compared against the source function
`get_minimum_range_percentage`. -/
def minimumSpanPercent_spec (s : State) (epsilonPercent : ℚ) : ℚ :=
  match s.start_time, s.end_time, s.current_records with
  | some st, some et, r :: _ =>
    max (max (1 / r.samplingRate) (1 / 10) / (et - st) * 100) epsilonPercent
  | _, _, _ => epsilonPercent

/-- A record with the given frame index whose timestamp equals that index in
seconds, one channel with one sample, and an empty payload. -/
def mkRec (i : ℤ) : Record where
  frameIndex := i
  createdAt := (i : ℚ)
  samplingRate := 1
  numberOfChannels := 1
  samplingSize := 1
  tacoChannelCount := 1
  message := []

/-- The 100-record dataset of the end-to-end scenario: frame indices 0..99,
with the slider bounds at 10 and 90 percent. -/
def s100 : State :=
  { initState with
      current_records := (List.range 100).map (fun i => mkRec (i : ℤ))
      lower_time_percentage := 10
      upper_time_percentage := 90
      start_slider := 10
      end_slider := 90 }

/-- A state whose sliders have been moved past each other: start at 80, end at 20. -/
def sCross : State := { initState with start_slider := 80, end_slider := 20 }

/-- A state with the crosshair locked at the point (1, 2) before a drag. -/
def sLocked : State :=
  { initState with
      is_crosshair_visible := true
      is_crosshair_locked := true
      locked_crosshair_position := some (1, 2) }

/-- A loaded state holding one record, to exhibit what a failed reload does to
prior in-memory state. -/
def sLoaded : State := { initState with current_records := [mkRec 7], filtered_records := [mkRec 7] }

/-- A state with one record of frame index 42 at timestamp 0 and the crosshair
locked exactly on it (x is the date number of timestamp 0), ready for the
selection flow. -/
def sSelect : State :=
  { initState with
      current_records := [{ mkRec 42 with createdAt := 0, message := [100, 200] }]
      is_crosshair_locked := true
      locked_crosshair_position := some (719163, 5) }

/-- A state whose recording lasts 1/20 of a second at sampling rate 1, making
the raw minimum-span value 2000 percent. -/
def sShort : State :=
  { initState with
      current_records := [mkRec 0]
      start_time := some 0
      end_time := some (1 / 20)
      initial_lower_x := 0
      initial_upper_x := 50
      is_dragging_range := true }

/-- A degenerate one-record dataset: a single frame index, zero duration. -/
def sOne : State :=
  { initState with
      current_records := [mkRec 5]
      start_time := some 3
      end_time := some 3 }

/-- A two-record state with the full 0 to 100 percent window selected. -/
def sFull : State :=
  { initState with
      current_records := [mkRec 9, mkRec 2]
      lower_time_percentage := 0
      upper_time_percentage := 100 }

/-- The observable crosshair state: visibility flag, lock flag, and locked
position — the triple the spec calls Hidden, Hovering and Locked. -/
def crosshairView (s : State) : Bool × Bool × Option (ℚ × ℚ) :=
  (s.is_crosshair_visible, s.is_crosshair_locked, s.locked_crosshair_position)

/-! Auxiliary lemmas about the Python min and max folds. -/

theorem foldl_min_le_init (xs : List ℤ) (x : ℤ) : xs.foldl min x ≤ x := by
  induction xs generalizing x with
  | nil => exact le_refl x
  | cons hd tl ih => exact le_trans (ih (min x hd)) (min_le_left x hd)

theorem foldl_min_le_of_mem (xs : List ℤ) (x y : ℤ) (hy : y ∈ xs) : xs.foldl min x ≤ y := by
  induction xs generalizing x with
  | nil => cases hy
  | cons hd tl ih =>
    rcases List.mem_cons.mp hy with h | h
    · subst h
      exact le_trans (foldl_min_le_init tl (min x y)) (min_le_right x y)
    · exact ih (min x hd) h

theorem pyMinZ_le (l : List ℤ) (y : ℤ) (hy : y ∈ l) : pyMinZ l ≤ y := by
  cases l with
  | nil => cases hy
  | cons x xs =>
    rcases List.mem_cons.mp hy with h | h
    · subst h; exact foldl_min_le_init xs y
    · exact foldl_min_le_of_mem xs x y h

theorem foldl_min_mem (xs : List ℤ) (x : ℤ) : xs.foldl min x ∈ x :: xs := by
  induction xs generalizing x with
  | nil => exact List.mem_singleton.mpr rfl
  | cons hd tl ih =>
    have h := ih (min x hd)
    rw [List.foldl_cons]
    rcases List.mem_cons.mp h with h1 | h1
    · rw [h1]
      rcases min_choice x hd with h2 | h2 <;> simp [h2]
    · simp [h1]

theorem pyMinZ_mem (l : List ℤ) (hl : l ≠ []) : pyMinZ l ∈ l := by
  cases l with
  | nil => exact absurd rfl hl
  | cons x xs => exact foldl_min_mem xs x

theorem init_le_foldl_max (xs : List ℤ) (x : ℤ) : x ≤ xs.foldl max x := by
  induction xs generalizing x with
  | nil => exact le_refl x
  | cons hd tl ih => exact le_trans (le_max_left x hd) (ih (max x hd))

theorem mem_le_foldl_max (xs : List ℤ) (x y : ℤ) (hy : y ∈ xs) : y ≤ xs.foldl max x := by
  induction xs generalizing x with
  | nil => cases hy
  | cons hd tl ih =>
    rcases List.mem_cons.mp hy with h | h
    · subst h
      exact le_trans (le_max_right x y) (init_le_foldl_max tl (max x y))
    · exact ih (max x hd) h

theorem le_pyMaxZ (l : List ℤ) (y : ℤ) (hy : y ∈ l) : y ≤ pyMaxZ l := by
  cases l with
  | nil => cases hy
  | cons x xs =>
    rcases List.mem_cons.mp hy with h | h
    · subst h; exact init_le_foldl_max xs y
    · exact mem_le_foldl_max xs x y h

theorem foldl_max_mem (xs : List ℤ) (x : ℤ) : xs.foldl max x ∈ x :: xs := by
  induction xs generalizing x with
  | nil => exact List.mem_singleton.mpr rfl
  | cons hd tl ih =>
    have h := ih (max x hd)
    rw [List.foldl_cons]
    rcases List.mem_cons.mp h with h1 | h1
    · rw [h1]
      rcases max_choice x hd with h2 | h2 <;> simp [h2]
    · simp [h1]

theorem pyMaxZ_mem (l : List ℤ) (hl : l ≠ []) : pyMaxZ l ∈ l := by
  cases l with
  | nil => exact absurd rfl hl
  | cons x xs => exact foldl_max_mem xs x

/-! Auxiliary lemmas about truncation toward zero. -/

theorem truncInt_intCast (n : ℤ) : truncInt (n : ℚ) = n := by
  unfold truncInt
  split
  · exact Int.floor_intCast n
  · exact Int.ceil_intCast n

theorem truncInt_zero : truncInt 0 = 0 := by
  simpa using truncInt_intCast 0

theorem truncInt_mono_nonneg (a b : ℚ) (ha : 0 ≤ a) (hab : a ≤ b) :
    truncInt a ≤ truncInt b := by
  unfold truncInt
  rw [if_pos ha, if_pos (le_trans ha hab)]
  exact Int.floor_le_floor hab

/-- Case analysis of `range_mouse_move`: either the event is ignored and the
state is returned unchanged, or both sliders and both percentages are set from
the two clamped shifted bounds and `update_labels` runs last. -/
theorem range_mouse_move_spec (s : State) (mx w : ℚ) :
    range_mouse_move s mx w = s ∨
    range_mouse_move s mx w =
      update_labels
        { s with
            start_slider :=
              truncInt (max 0 (min 100 (s.initial_lower_x + (mx - s.drag_start_x) / w * 100)))
            end_slider :=
              truncInt (max 0 (min 100 (s.initial_upper_x + (mx - s.drag_start_x) / w * 100)))
            lower_time_percentage :=
              max 0 (min 100 (s.initial_lower_x + (mx - s.drag_start_x) / w * 100))
            upper_time_percentage :=
              max 0 (min 100 (s.initial_upper_x + (mx - s.drag_start_x) / w * 100)) } := by
  unfold range_mouse_move
  split
  · exact Or.inl rfl
  · split
    · exact Or.inl rfl
    · dsimp only
      split
      · exact Or.inl rfl
      · exact Or.inr rfl

/-- C1, amended.  The slider-update path `update_labels` copies the raw slider
values into the two bounds with no ordering enforcement whatsoever, so the
bound pair after an update is exactly the raw slider pair; separately, the
drag path `range_mouse_move` does keep the bounds ordered whenever the current
bounds and the drag baseline are ordered, because it shifts both baselines by
one common delta and clamps monotonically. -/
theorem C1_update_labels_raw_pair (s : State) :
    ((update_labels s).lower_time_percentage = (s.start_slider : ℚ) ∧
      (update_labels s).upper_time_percentage = (s.end_slider : ℚ)) ∧
    (s.lower_time_percentage ≤ s.upper_time_percentage →
      s.initial_lower_x ≤ s.initial_upper_x →
      ∀ mouse_x widget_width : ℚ,
        (range_mouse_move s mouse_x widget_width).lower_time_percentage ≤
          (range_mouse_move s mouse_x widget_width).upper_time_percentage) := by
  refine ⟨⟨rfl, rfl⟩, ?_⟩
  intro h1 h2 mx w
  rcases range_mouse_move_spec s mx w with h | h
  · rw [h]; exact h1
  · rw [h]
    show ((truncInt _ : ℤ) : ℚ) ≤ ((truncInt _ : ℤ) : ℚ)
    have ha : (0 : ℚ) ≤ max 0 (min 100 (s.initial_lower_x + (mx - s.drag_start_x) / w * 100)) :=
      le_max_left 0 _
    have hab : max 0 (min 100 (s.initial_lower_x + (mx - s.drag_start_x) / w * 100)) ≤
        max 0 (min 100 (s.initial_upper_x + (mx - s.drag_start_x) / w * 100)) :=
      max_le_max (le_refl 0) (min_le_min (le_refl 100) (add_le_add_right h2 _))
    exact_mod_cast truncInt_mono_nonneg _ _ ha hab

/-- C1 witness: the ordering-preservation part of the amended claim applied to
the freshly constructed state with a concrete drag event. -/
theorem C1_witness :
    initState.lower_time_percentage ≤ initState.upper_time_percentage ∧
    initState.initial_lower_x ≤ initState.initial_upper_x ∧
    (range_mouse_move initState 3 7).lower_time_percentage ≤
      (range_mouse_move initState 3 7).upper_time_percentage :=
  ⟨by decide, by decide, (C1_update_labels_raw_pair initState).2 (by decide) (by decide) 3 7⟩

/-- C1 counterexample: with the start slider at 80 and the end slider at 20,
the settled bounds after `update_labels` are the raw out-of-order pair
(80, 20) — the lower bound exceeds the upper bound and no swap to the sorted
pair (20, 80) happens, contradicting the claimed invariant. -/
theorem C1_counterexample :
    (update_labels sCross).upper_time_percentage <
      (update_labels sCross).lower_time_percentage ∧
    ((update_labels sCross).lower_time_percentage,
      (update_labels sCross).upper_time_percentage) = (80, 20) ∧
    ((update_labels sCross).lower_time_percentage,
      (update_labels sCross).upper_time_percentage) ≠ (20, 80) := by
  refine ⟨by decide, by decide, by decide⟩

theorem truncInt_eq (q : ℚ) (n : ℤ) (h0 : 0 ≤ q) (h1 : (n : ℚ) ≤ q) (h2 : q < n + 1) :
    truncInt q = n := by
  unfold truncInt
  rw [if_pos h0]
  exact Int.floor_eq_iff.mpr ⟨h1, h2⟩

theorem frame_window_s100 :
    frame_window s100.current_records s100.lower_time_percentage
      s100.upper_time_percentage = (9, 89) := by
  have hmin : pyMinZ (s100.current_records.map Record.frameIndex) = 0 := by decide
  have hmax : pyMaxZ (s100.current_records.map Record.frameIndex) = 99 := by decide
  have hl : s100.lower_time_percentage = 10 := rfl
  have hu : s100.upper_time_percentage = 90 := rfl
  have t1 : truncInt (((99 - 0 : ℤ) : ℚ) * 10 / 100) = 9 :=
    truncInt_eq _ 9 (by norm_num) (by norm_num) (by norm_num)
  have t2 : truncInt (((99 - 0 : ℤ) : ℚ) * 90 / 100) = 89 :=
    truncInt_eq _ 89 (by norm_num) (by norm_num) (by norm_num)
  unfold frame_window
  rw [hl, hu]
  simp only [hmin, hmax]
  rw [t1, t2]
  decide

/-- C2, amended.  The percentage bounds are converted to frame indices by
TRUNCATION, frameIndex = minFrame + int((maxFrame - minFrame) * p / 100), not
by rounding: on the 100-record dataset with frame indices 0..99 and bounds 10
and 90 percent, int(99 * 0.1) = 9, so the filtered window is [9, 89] inclusive
and the filtered record count is 81. -/
theorem C2_truncation_window :
    get_current_frame_index_range s100 = (9, 89) ∧
    (filter_records_by_frame_index_range s100).filtered_records.length = 81 := by
  have hne : s100.current_records ≠ [] := by decide
  constructor
  · unfold get_current_frame_index_range
    rw [if_neg hne, frame_window_s100]
  · unfold filter_records_by_frame_index_range
    rw [if_neg hne]
    simp only [frame_window_s100]
    decide

/-- C2 counterexample: the claimed rounded window (10, 89) and the claimed
count 80 are both wrong on the code — truncation gives (9, 89) and 81. -/
theorem C2_counterexample :
    get_current_frame_index_range s100 ≠ (10, 89) ∧
    (filter_records_by_frame_index_range s100).filtered_records.length ≠ 80 := by
  have hne : s100.current_records ≠ [] := by decide
  constructor
  · unfold get_current_frame_index_range
    rw [if_neg hne, frame_window_s100]
    decide
  · unfold filter_records_by_frame_index_range
    rw [if_neg hne]
    simp only [frame_window_s100]
    decide

/-! Preservation of the observable crosshair triple by every operation a drag
gesture performs. -/

theorem crosshairView_update_labels (s : State) :
    crosshairView (update_labels s) = crosshairView s := rfl

theorem crosshairView_filter (s : State) :
    crosshairView (filter_records_by_frame_index_range s) = crosshairView s := by
  unfold filter_records_by_frame_index_range
  split
  · rfl
  · rfl

theorem crosshairView_plot (s : State) :
    crosshairView (plot_frequency_data s) = crosshairView s := by
  unfold plot_frequency_data
  split
  · rfl
  · split
    · rfl
    · rfl

theorem crosshairView_filter_and_plot (s : State) :
    crosshairView (filter_and_plot_data s) = crosshairView s := by
  unfold filter_and_plot_data
  split
  · rfl
  · rw [crosshairView_plot, crosshairView_filter]

theorem crosshairView_range_mouse_move (s : State) (mx w : ℚ) :
    crosshairView (range_mouse_move s mx w) = crosshairView s := by
  rcases range_mouse_move_spec s mx w with h | h
  · rw [h]
  · rw [h]
    rfl

theorem crosshairView_drag_step (s : State) (ev : ℚ × ℚ × Bool) :
    crosshairView (drag_step s ev) = crosshairView s := by
  unfold drag_step
  split
  · rw [crosshairView_filter_and_plot, crosshairView_range_mouse_move]
  · exact crosshairView_range_mouse_move s ev.1 ev.2.1

theorem crosshairView_drag_foldl (evs : List (ℚ × ℚ × Bool)) (s : State) :
    crosshairView (evs.foldl drag_step s) = crosshairView s := by
  induction evs generalizing s with
  | nil => rfl
  | cons e tl ih => rw [List.foldl_cons, ih, crosshairView_drag_step]

/-- C3, amended.  The drag gesture performs NO snapshot and NO restore of the
crosshair state (the helpers `save_crosshair_state` and
`restore_crosshair_state` exist in the source but are never invoked by
`start_range_drag` or `stop_range_drag`); nevertheless the crosshair
visibility, lock flag and locked position after a complete drag gesture —
including any number of mid-drag moves and debounce-triggered redraws — equal
those before it, because no step of the gesture writes any crosshair field. -/
theorem C3_drag_preserves_crosshair (s : State) (evs : List (ℚ × ℚ × Bool)) :
    (drag_gesture s evs).is_crosshair_visible = s.is_crosshair_visible ∧
    (drag_gesture s evs).is_crosshair_locked = s.is_crosshair_locked ∧
    (drag_gesture s evs).locked_crosshair_position = s.locked_crosshair_position := by
  have h : crosshairView (drag_gesture s evs) = crosshairView s := by
    unfold drag_gesture
    rw [crosshairView_filter_and_plot]
    have hstop : crosshairView (stop_range_drag (evs.foldl drag_step (start_range_drag s))) =
        crosshairView (evs.foldl drag_step (start_range_drag s)) := rfl
    rw [hstop, crosshairView_drag_foldl]
    rfl
  refine ⟨?_, ?_, ?_⟩
  · exact congrArg (fun t => t.1) h
  · exact congrArg (fun t => t.2.1) h
  · exact congrArg (fun t => t.2.2) h

/-- C3 counterexample: with the crosshair locked at (1, 2), `start_range_drag`
records no snapshot — the snapshot flag stays false and the saved lock flag
stays false, refuting the claim that the gesture snapshots the crosshair state
at drag start; by contrast a call to the never-invoked helper
`save_crosshair_state` would have set the snapshot flag. -/
theorem C3_counterexample :
    sLocked.is_crosshair_locked = true ∧
    (start_range_drag sLocked).crosshair_state_saved = false ∧
    (start_range_drag sLocked).saved_crosshair_locked = false ∧
    (start_range_drag sLocked).saved_crosshair_position = none ∧
    (save_crosshair_state sLocked).crosshair_state_saved = true := by
  refine ⟨rfl, rfl, rfl, rfl, rfl⟩

theorem block_start_lt (i f n : ℕ) (hf : 2 ≤ f) (hi : i < (n + f - 1) / f) : i * f < n := by
  have h1 : i + 1 ≤ (n + f - 1) / f := hi
  have h2 : (i + 1) * f ≤ ((n + f - 1) / f) * f := Nat.mul_le_mul_right _ h1
  have h3 : ((n + f - 1) / f) * f ≤ n + f - 1 := Nat.div_mul_le_self _ _
  have h4 : (i + 1) * f = i * f + f := by ring
  omega

/-- C4.  The downsampler returns the input unchanged when the factor is at
most 1; the empty sequence yields the empty output; for a factor above 1 the
output length is the ceiling of length over factor, computed as
(length + factor - 1) / factor in natural division; and every output of a
constant input equals that constant, because each output entry is the
arithmetic mean of one nonempty block of inputs. -/
theorem C4_downsample_contract (array : List ℚ) (factor : ℕ) (c : ℚ) :
    (factor ≤ 1 → downsample_array array factor = array) ∧
    downsample_array [] factor = [] ∧
    (1 < factor →
      (downsample_array array factor).length = (array.length + factor - 1) / factor) ∧
    ((∀ x ∈ array, x = c) → ∀ y ∈ downsample_array array factor, y = c) := by
  refine ⟨?_, ?_, ?_, ?_⟩
  · intro h
    unfold downsample_array
    rw [if_pos h]
  · by_cases h : factor ≤ 1
    · unfold downsample_array
      rw [if_pos h]
    · unfold downsample_array
      rw [if_neg h]
      have hz : (List.length ([] : List ℚ) + factor - 1) / factor = 0 :=
        Nat.div_eq_of_lt (by simp; omega)
      simp only [hz]
      rfl
  · intro h
    unfold downsample_array
    rw [if_neg (by omega)]
    simp
  · intro hc y hy
    by_cases hf : factor ≤ 1
    · unfold downsample_array at hy
      rw [if_pos hf] at hy
      exact hc y hy
    · unfold downsample_array at hy
      rw [if_neg hf] at hy
      simp only [List.mem_map, List.mem_range] at hy
      obtain ⟨i, hi, rfl⟩ := hy
      have hstart : i * factor < array.length := block_start_lt i factor _ (by omega) hi
      have hsub : ((array.drop (i * factor)).take factor) ⊆ array :=
        (List.take_subset _ _).trans (List.drop_subset _ _)
      have hmem : ∀ b ∈ (array.drop (i * factor)).take factor, b = c :=
        fun b hb => hc b (hsub hb)
      have hlen : ((array.drop (i * factor)).take factor).length =
          min factor (array.length - i * factor) := by
        rw [List.length_take, List.length_drop]
      have hpos : ((array.drop (i * factor)).take factor).length ≠ 0 := by
        rw [hlen]
        omega
      unfold listMean
      have hsum : ((array.drop (i * factor)).take factor).sum =
          (((array.drop (i * factor)).take factor).length : ℚ) * c := by
        conv_lhs => rw [List.eq_replicate_length.mpr hmem]
        rw [List.sum_replicate, nsmul_eq_mul]
      rw [hsum]
      exact mul_div_cancel_left₀ c (Nat.cast_ne_zero.mpr hpos)

/-- C4 witness: the contract applied at the sequence [3, 3, 3] with factors 1
and 2 — identity at factor 1, output length 2 = ceil(3/2) at factor 2. -/
theorem C4_witness :
    downsample_array [(3 : ℚ), 3, 3] 1 = [(3 : ℚ), 3, 3] ∧
    (downsample_array [(3 : ℚ), 3, 3] 2).length = 2 := by
  constructor
  · exact (C4_downsample_contract [(3 : ℚ), 3, 3] 1 3).1 (by decide)
  · rw [(C4_downsample_contract [(3 : ℚ), 3, 3] 2 3).2.2.1 (by decide)]
    rfl

/-- C5, evaluating the code at the failing input (a code bug).  With the
crosshair locked on the point resolving to the frame-index-42 record, the
selection flow resolves that record, but the `TypeError` raised by
`datetime.timezone("Asia/Kolkata")` while formatting the confirmation text
aborts the handler BEFORE the confirmation prompt: no `time_range_selected`
payload is ever emitted, whether the prompt would have answered true or false,
even though the crosshair stays locked and the record was resolved.  The claim
(and the dead emit branch of the source itself) expects exactly one emission
on a positive answer. -/
theorem C5_confirmation_unreachable :
    find_closest_record sSelect (fun _ => none)
        (mdates_num2timestamp 719163) = some { mkRec 42 with createdAt := 0, message := [100, 200] } ∧
    (select_button_click sSelect (fun _ => none) true).2 = [] ∧
    (select_button_click sSelect (fun _ => none) false).2 = [] ∧
    (select_button_click sSelect (fun _ => none) true).1.is_crosshair_locked = true ∧
    (select_button_click sSelect (fun _ => none) true).1.locked_crosshair_position =
      some (719163, 5) ∧
    (select_button_click sSelect (fun _ => none) true).1.lower_time_percentage =
      sSelect.lower_time_percentage ∧
    (select_button_click sSelect (fun _ => none) true).1.upper_time_percentage =
      sSelect.upper_time_percentage := by
  refine ⟨rfl, rfl, rfl, rfl, rfl, rfl, rfl⟩

/-- C6, amended.  A load that fails as a whole — the store raising a
connectivity failure or returning an empty result — surfaces exactly one
message and commits no new data, but it does NOT leave the prior in-memory
state untouched: `initialize_data` clears both record lists before fetching,
so after any failed load both lists are empty regardless of their prior
contents. -/
theorem C6_failed_load_clears (s : State) :
    ((init_data s (Except.error ())).1.current_records = [] ∧
      (init_data s (Except.error ())).1.filtered_records = [] ∧
      (init_data s (Except.error ())).2 = 1) ∧
    ((init_data s (Except.ok [])).1.current_records = [] ∧
      (init_data s (Except.ok [])).1.filtered_records = [] ∧
      (init_data s (Except.ok [])).2 = 1) := by
  exact ⟨⟨rfl, rfl, rfl⟩, ⟨rfl, rfl, rfl⟩⟩

/-- C6 counterexample: starting from a state that holds one loaded record, a
load failing with a store error leaves both record lists EMPTY, not equal to
their prior nonempty contents — the prior in-memory state is destroyed, not
left untouched. -/
theorem C6_counterexample :
    (init_data sLoaded (Except.error ())).1.current_records ≠ sLoaded.current_records ∧
    (init_data sLoaded (Except.error ())).1.filtered_records ≠ sLoaded.filtered_records ∧
    (init_data sLoaded (Except.error ())).1.current_records = [] ∧
    sLoaded.current_records = [mkRec 7] := by
  refine ⟨by decide, by decide, rfl, rfl⟩

/-- C7, amended.  With both time bounds present, a positive total duration, at
least one record and a positive sampling rate, the minimum allowed span
percentage is min(max(1/samplingRate, 0.1) / totalDuration * 100, 100) — the
raw value is clamped ABOVE at 100 by `min`, not floored by `max` against an
epsilon as the claim states — and a drag whose clamped new span falls below
that value is not applied: the state, and with it the previous bounds, is kept
unchanged. -/
theorem C7_min_span (s : State) (st et : ℚ) (r : Record) (rs : List Record)
    (h1 : s.start_time = some st) (h2 : s.end_time = some et) (h3 : 0 < et - st)
    (h4 : s.current_records = r :: rs) (h5 : 0 < r.samplingRate) :
    get_minimum_range_percentage s =
      min (max (1 / r.samplingRate) (1 / 10) / (et - st) * 100) 100 ∧
    (∀ mouse_x widget_width : ℚ, 0 < widget_width →
      max 0 (min 100 (s.initial_upper_x + (mouse_x - s.drag_start_x) / widget_width * 100)) -
          max 0 (min 100 (s.initial_lower_x + (mouse_x - s.drag_start_x) / widget_width * 100)) <
          get_minimum_range_percentage s →
      range_mouse_move s mouse_x widget_width = s) := by
  constructor
  · unfold get_minimum_range_percentage
    rw [h1, h2, h4]
    dsimp only
    rw [if_neg (not_le.mpr h3), if_pos h5]
  · intro mx w hw hlt
    unfold range_mouse_move
    by_cases hd : s.is_dragging_range = false
    · rw [if_pos hd]
    · rw [if_neg hd, if_neg (not_le.mpr hw)]
      dsimp only
      rw [if_pos hlt]

theorem gmrp_sShort : get_minimum_range_percentage sShort = 100 := by
  have hrate : (mkRec 0).samplingRate = 1 := rfl
  unfold get_minimum_range_percentage
  rw [show sShort.start_time = some 0 from rfl, show sShort.end_time = some (1 / 20) from rfl,
    show sShort.current_records = [mkRec 0] from rfl]
  dsimp only
  rw [if_neg (by norm_num), if_pos (by rw [hrate]; norm_num), hrate]
  rw [show max (1 / (1 : ℚ)) (1 / 10) = 1 from by norm_num [max_eq_left]]
  rw [show (1 : ℚ) / (1 / 20 - 0) * 100 = 2000 from by norm_num]
  exact min_eq_right (by norm_num)

theorem spanSpec_sShort : minimumSpanPercent_spec sShort 0 = 2000 := by
  have hrate : (mkRec 0).samplingRate = 1 := rfl
  unfold minimumSpanPercent_spec
  rw [show sShort.start_time = some 0 from rfl, show sShort.end_time = some (1 / 20) from rfl,
    show sShort.current_records = [mkRec 0] from rfl]
  dsimp only
  rw [hrate]
  rw [show max (1 / (1 : ℚ)) (1 / 10) = 1 from by norm_num [max_eq_left]]
  rw [show (1 : ℚ) / (1 / 20 - 0) * 100 = 2000 from by norm_num]
  exact max_eq_left (by norm_num)

/-- C7 witness: the amended formula and the drag rejection applied to the
concrete short recording (duration 1/20 s, sampling rate 1): the minimum span
is 100 and a drag event at mouse position 0 with widget width 100 leaves the
state unchanged because its clamped span 50 falls below 100. -/
theorem C7_witness :
    sShort.start_time = some 0 ∧ sShort.end_time = some (1 / 20) ∧ (0 : ℚ) < 1 / 20 - 0 ∧
    sShort.current_records = mkRec 0 :: [] ∧ (0 : ℚ) < (mkRec 0).samplingRate ∧
    get_minimum_range_percentage sShort =
      min (max (1 / (mkRec 0).samplingRate) (1 / 10) / (1 / 20 - 0) * 100) 100 ∧
    range_mouse_move sShort 0 100 = sShort := by
  have hrate : (mkRec 0).samplingRate = 1 := rfl
  have hr5 : (0 : ℚ) < (mkRec 0).samplingRate := by rw [hrate]; norm_num
  refine ⟨rfl, rfl, by norm_num, rfl, hr5, ?_, ?_⟩
  · exact (C7_min_span sShort 0 (1 / 20) (mkRec 0) [] rfl rfl (by norm_num) rfl hr5).1
  · refine (C7_min_span sShort 0 (1 / 20) (mkRec 0) [] rfl rfl (by norm_num) rfl hr5).2
      0 100 (by norm_num) ?_
    have e1 : sShort.initial_upper_x + ((0 : ℚ) - sShort.drag_start_x) / 100 * 100 = 50 := by
      rw [show sShort.initial_upper_x = 50 from rfl, show sShort.drag_start_x = 0 from rfl]
      norm_num
    have e2 : sShort.initial_lower_x + ((0 : ℚ) - sShort.drag_start_x) / 100 * 100 = 0 := by
      rw [show sShort.initial_lower_x = 0 from rfl, show sShort.drag_start_x = 0 from rfl]
      norm_num
    rw [e1, e2, gmrp_sShort]
    rw [show min (100 : ℚ) 50 = 50 from min_eq_right (by norm_num),
      show max (0 : ℚ) 50 = 50 from max_eq_right (by norm_num),
      show min (100 : ℚ) 0 = 0 from min_eq_right (by norm_num),
      show max (0 : ℚ) 0 = 0 from max_self 0]
    norm_num

/-- C7 counterexample: on the short recording the raw span value is 2000
percent; the code returns min(2000, 100) = 100 while the claimed formula
max(2000, epsilon) is at least 2000 for every nonnegative epsilon (already at
epsilon = 0 it equals 2000), so the code result is strictly below the claimed
one. -/
theorem C7_counterexample :
    get_minimum_range_percentage sShort = 100 ∧
    minimumSpanPercent_spec sShort 0 = 2000 ∧
    get_minimum_range_percentage sShort < minimumSpanPercent_spec sShort 0 := by
  refine ⟨gmrp_sShort, spanSpec_sShort, ?_⟩
  rw [gmrp_sShort, spanSpec_sShort]
  norm_num

theorem sorted_of_const_key (l : List Record) (k : ℤ) (hk : ∀ r ∈ l, r.frameIndex = k) :
    List.Sorted recLe l := by
  induction l with
  | nil => exact List.sorted_nil
  | cons a tl ih =>
    refine List.Pairwise.cons ?_ (ih (fun r hr => hk r (List.mem_cons_of_mem a hr)))
    intro b hb
    unfold recLe
    rw [hk a (List.mem_cons_self a tl), hk b (List.mem_cons_of_mem a hb)]

/-- C8.  On a degenerate dataset whose records all carry one frame index k
(so minFrame = maxFrame), the percentage-to-frame computations complete — the
only divisor in frame space is the constant 100, and the duration-based
minimum-span computation is guarded to return the constant 1 when the total
duration is zero — both window bounds resolve to (k, k) for ANY percentage
pair, and filtering keeps the whole record set unchanged. -/
theorem C8_degenerate (s : State) (k : ℤ) (hne : s.current_records ≠ [])
    (hk : ∀ r ∈ s.current_records, r.frameIndex = k) :
    get_current_frame_index_range s = (k, k) ∧
    (filter_records_by_frame_index_range s).filtered_records = s.current_records ∧
    (∀ t : ℚ, s.start_time = some t → s.end_time = some t →
      get_minimum_range_percentage s = 1) := by
  have hidx : ∀ z ∈ s.current_records.map Record.frameIndex, z = k := by
    intro z hz
    obtain ⟨r, hr, rfl⟩ := List.mem_map.mp hz
    exact hk r hr
  have hmapne : s.current_records.map Record.frameIndex ≠ [] := by
    simpa using hne
  have hmin : pyMinZ (s.current_records.map Record.frameIndex) = k :=
    hidx _ (pyMinZ_mem _ hmapne)
  have hmax : pyMaxZ (s.current_records.map Record.frameIndex) = k :=
    hidx _ (pyMaxZ_mem _ hmapne)
  have hw : frame_window s.current_records s.lower_time_percentage
      s.upper_time_percentage = (k, k) := by
    unfold frame_window
    simp only [hmin, hmax, sub_self]
    norm_num [truncInt_zero]
  refine ⟨?_, ?_, ?_⟩
  · unfold get_current_frame_index_range
    rw [if_neg hne, hw]
  · unfold filter_records_by_frame_index_range
    rw [if_neg hne]
    simp only [hw]
    have hfilter : s.current_records.filter
        (fun rec => decide (k ≤ rec.frameIndex) && decide (rec.frameIndex ≤ k)) =
        s.current_records := by
      refine List.filter_eq_self.mpr ?_
      intro a ha
      rw [hk a ha]
      simp
    simp only [hfilter]
    unfold pySortByFrameIndex
    simp only [List.Sorted.insertionSort_eq (sorted_of_const_key s.current_records k hk)]
  · intro t h1 h2
    unfold get_minimum_range_percentage
    rw [h1, h2]
    dsimp only
    rw [if_pos (by simp)]

/-- C8 witness: the degenerate one-record dataset with frame index 5 and a
zero-length recording — the window is (5, 5), filtering keeps the record, and
the minimum span percentage is the guarded constant 1. -/
theorem C8_witness :
    get_current_frame_index_range sOne = (5, 5) ∧
    (filter_records_by_frame_index_range sOne).filtered_records = sOne.current_records ∧
    get_minimum_range_percentage sOne = 1 := by
  have h := C8_degenerate sOne 5 (by decide) (by decide)
  exact ⟨h.1, h.2.1, h.2.2 3 rfl rfl⟩

theorem lock_inv_step (s : State)
    (h : s.is_crosshair_locked = true ↔ s.locked_crosshair_position.isSome = true)
    (e : MouseEvent) :
    (applyEvent s e).is_crosshair_locked = true ↔
      (applyEvent s e).locked_crosshair_position.isSome = true := by
  cases e with
  | leave =>
    simp only [applyEvent, on_mouse_leave]
    split
    · exact h
    · exact h
  | click inaxes xy button =>
    simp only [applyEvent, on_mouse_click]
    cases inaxes
    · simpa using h
    · cases xy with
      | none => simpa using h
      | some p =>
        obtain ⟨x, y⟩ := p
        by_cases hb : button = 1
        · cases hcl : s.is_crosshair_locked <;> simp [hb, hcl]
        · simpa [hb] using h

theorem lock_inv_foldl (evs : List MouseEvent) (s : State)
    (h : s.is_crosshair_locked = true ↔ s.locked_crosshair_position.isSome = true) :
    (applyEvents s evs).is_crosshair_locked = true ↔
      (applyEvents s evs).locked_crosshair_position.isSome = true := by
  induction evs generalizing s with
  | nil => exact h
  | cons e tl ih =>
    show (tl.foldl applyEvent (applyEvent s e)).is_crosshair_locked = true ↔ _
    exact ih (applyEvent s e) (lock_inv_step s h e)

/-- C9.  After any sequence of mouse-click and mouse-leave events from the
initial state, the crosshair lock flag is set exactly when a locked position is
stored; and the selection entry point returns unchanged, emitting nothing,
whenever no position is stored — so it can never proceed on a lock flag
without a stored position. -/
theorem C9_lock_position_invariant (evs : List MouseEvent) :
    ((applyEvents initState evs).is_crosshair_locked = true ↔
      (applyEvents initState evs).locked_crosshair_position.isSome = true) ∧
    (∀ s : State, ∀ fetch : ℤ → Option Record, ∀ ask : Bool,
      s.locked_crosshair_position = none →
      select_button_click s fetch ask = (s, [])) := by
  constructor
  · exact lock_inv_foldl evs initState (by simp [initState])
  · intro s fetch ask hpos
    unfold select_button_click
    rw [hpos]
    cases hcl : s.is_crosshair_locked
    · rfl
    · rfl

/-- C9 witness: the invariant holds after a concrete locking click, and the
selection entry point on the initial state, which stores no position, returns
it unchanged with no emission. -/
theorem C9_witness :
    ((applyEvents initState [MouseEvent.click true (some (1, 2)) 1]).is_crosshair_locked = true ↔
      (applyEvents initState
        [MouseEvent.click true (some (1, 2)) 1]).locked_crosshair_position.isSome = true) ∧
    initState.locked_crosshair_position = none ∧
    select_button_click initState (fun _ => none) true = (initState, []) :=
  ⟨(C9_lock_position_invariant [MouseEvent.click true (some (1, 2)) 1]).1,
    rfl,
    (C9_lock_position_invariant []).2 initState (fun _ => none) true rfl⟩

theorem frame_window_full (l : List Record) :
    frame_window l 0 100 =
      (pyMinZ (l.map Record.frameIndex), pyMaxZ (l.map Record.frameIndex)) := by
  unfold frame_window
  simp only [mul_zero, zero_div, truncInt_zero, add_zero, max_self]
  have h100 :
      ((pyMaxZ (l.map Record.frameIndex) - pyMinZ (l.map Record.frameIndex) : ℤ) : ℚ) * 100 /
        100 =
      ((pyMaxZ (l.map Record.frameIndex) - pyMinZ (l.map Record.frameIndex) : ℤ) : ℚ) :=
    mul_div_cancel_right₀ _ (by norm_num)
  rw [h100, truncInt_intCast]
  have hsum : pyMinZ (l.map Record.frameIndex) +
      (pyMaxZ (l.map Record.frameIndex) - pyMinZ (l.map Record.frameIndex)) =
      pyMaxZ (l.map Record.frameIndex) := by ring
  rw [hsum, min_self]

/-- C10.  With the full window selected — lower bound 0 percent and upper
bound 100 percent — filtering a nonempty record set keeps every record: the
filtered list is a permutation of the whole record set and is sorted ascending
by frame index, so the full-range filter is the identity up to ordering. -/
theorem C10_full_window (s : State) (hne : s.current_records ≠ [])
    (hl : s.lower_time_percentage = 0) (hu : s.upper_time_percentage = 100) :
    (filter_records_by_frame_index_range s).filtered_records.Perm s.current_records ∧
    List.Sorted recLe (filter_records_by_frame_index_range s).filtered_records := by
  have hw : frame_window s.current_records s.lower_time_percentage
      s.upper_time_percentage =
      (pyMinZ (s.current_records.map Record.frameIndex),
        pyMaxZ (s.current_records.map Record.frameIndex)) := by
    rw [hl, hu]
    exact frame_window_full s.current_records
  have hfilter : s.current_records.filter
      (fun rec =>
        decide (pyMinZ (s.current_records.map Record.frameIndex) ≤ rec.frameIndex) &&
          decide (rec.frameIndex ≤ pyMaxZ (s.current_records.map Record.frameIndex))) =
      s.current_records := by
    refine List.filter_eq_self.mpr ?_
    intro a ha
    have hmem : a.frameIndex ∈ s.current_records.map Record.frameIndex :=
      List.mem_map.mpr ⟨a, ha, rfl⟩
    simp [pyMinZ_le _ _ hmem, le_pyMaxZ _ _ hmem]
  have heq : (filter_records_by_frame_index_range s).filtered_records =
      pySortByFrameIndex s.current_records := by
    unfold filter_records_by_frame_index_range
    rw [if_neg hne]
    simp only [hw]
    rw [hfilter]
  rw [heq]
  unfold pySortByFrameIndex
  exact ⟨List.perm_insertionSort recLe s.current_records,
    List.sorted_insertionSort recLe s.current_records⟩

/-- C10 witness: the full-window filter applied to the concrete two-record
state keeps both records, sorted. -/
theorem C10_witness :
    (filter_records_by_frame_index_range sFull).filtered_records.Perm sFull.current_records ∧
    List.Sorted recLe (filter_records_by_frame_index_range sFull).filtered_records :=
  C10_full_window sFull (by decide) rfl rfl
